import Mathlib

/-!
Verification of the banking-ledger service: a shallow embedding of the
transaction/account services (`transactionService`, `accountService`, the
database configuration module and the mongoose models) together with proofs
of the behavioural properties stated in the specification.

Modelling conventions:
* Mongo collections are partial maps from document id (`Nat`) to document;
  ledger entries form an append-only list.
* Amounts and balances are `Int` (the source uses JS numbers; the spec calls
  them signed decimals — claims here do not depend on rounding).
* Each store write (`save`) may fail: an oracle `Nat → Bool` says whether the
  n-th write of an operation succeeds, modelling driver/store failures.
  Inside a mongoose session, writes become visible only at commit; an abort
  leaves the store untouched.
* `generateTransactionId` (a uuid), `generateAccountNumber` (random digits)
  and `new Date()` are nondeterministic in the source and are passed in as
  parameters (`txnId`, `accountNumber`, `now`).
* Errors are the literal message strings thrown by the service
  (`LedgerError.appError`), or an opaque driver failure (`storeError`).
-/

namespace BankingLedger

/-- `AccountStatus` from models/account. -/
inductive AccountStatus where
  | active
  | frozen
  | closed
deriving DecidableEq

/-- `AccountType` from models/account. -/
inductive AccountType where
  | asset
  | liability
  | equity
  | revenue
  | expense
deriving DecidableEq

/-- `EntryType` from models/ledgerEntry. -/
inductive EntryType where
  | debit
  | credit
deriving DecidableEq

/-- `TransactionType` from models/transaction. -/
inductive TransactionType where
  | deposit
  | withdrawal
  | transfer
  | fee
  | adjustment
deriving DecidableEq

/-- `TransactionStatus` from models/transaction. -/
inductive TransactionStatus where
  | pending
  | completed
  | failed
  | cancelled
deriving DecidableEq

/-- An account document (models/account).  `accId` is the Mongo `_id`;
`createdAt`/`updatedAt` (driver managed) and the opaque `metadata` map are
not modelled, no claim mentions them. -/
structure Account where
  accId : Nat
  userId : Nat
  accountNumber : String
  name : String
  type : AccountType
  currency : String
  balance : Int
  availableBalance : Int
  status : AccountStatus
deriving DecidableEq

/-- A transaction document (models/transaction).  `id` is the Mongo `_id`,
`transactionId` the uuid string; `completedAt` a timestamp when set. -/
structure Transaction where
  id : Nat
  transactionId : String
  userId : Nat
  type : TransactionType
  amount : Int
  currency : String
  sourceAccountId : Option Nat
  destinationAccountId : Option Nat
  description : String
  status : TransactionStatus
  completedAt : Option Nat
deriving DecidableEq

/-- A ledger entry document (models/ledgerEntry): `transactionId` references
the owning transaction `_id`, `balance` is the account balance snapshot
immediately after applying this entry. -/
structure LedgerEntry where
  transactionId : Nat
  accountId : Nat
  type : EntryType
  amount : Int
  currency : String
  balance : Int
  description : String
deriving DecidableEq

/-- Errors surfaced by the services: the literal thrown message strings, or
an opaque store/driver failure. -/
inductive LedgerError where
  | appError (msg : String)
  | storeError
deriving DecidableEq

/-- The persistent state: the three Mongo collections.  Accounts and
transactions are keyed by `_id`; ledger entries are append-only.  `nextId`
is the id-allocation counter (Mongo object ids are globally unique). -/
structure Store where
  accounts : Nat → Option Account
  transactions : Nat → Option Transaction
  entries : List LedgerEntry
  nextId : Nat

/-- The empty database. -/
def emptyStore : Store where
  accounts := fun _ => none
  transactions := fun _ => none
  entries := []
  nextId := 0

/-- `Account.findOne({ _id, userId })` — lookup scoped to the owner. -/
def findOneAccountOwned (st : Store) (accId userId : Nat) : Option Account :=
  match st.accounts accId with
  | some a => if a.userId = userId then some a else none
  | none => none

/-- `Account.findOne({ _id })` — lookup by id alone, no ownership filter. -/
def findOneAccount (st : Store) (accId : Nat) : Option Account :=
  st.accounts accId

/-- `account.save()` — write the full document back under its own `_id`. -/
def saveAccount (st : Store) (a : Account) : Store :=
  { st with accounts := fun i => if i = a.accId then some a else st.accounts i }

/-- `transaction.save()` — write the full document back under its own `_id`. -/
def saveTransaction (st : Store) (t : Transaction) : Store :=
  { st with transactions := fun i => if i = t.id then some t else st.transactions i }

/-- `entry.save()` — ledger entries are only ever appended. -/
def appendEntry (st : Store) (e : LedgerEntry) : Store :=
  { st with entries := st.entries ++ [e] }

/-- config/database: `useTransactions = NODE_ENV === "production"`, a
module-level immutable constant fixed once at process startup. -/
def useTransactions (nodeEnv : String) : Bool :=
  nodeEnv == "production"

/-- config/database `connectDB`: returns the log lines emitted and the value
of the exported `useTransactions` flag in effect afterwards.  `probeOk` is
whether the one-time `startSession` capability probe succeeds.  The flag is
a `const`: no code path reassigns it, whatever the probe says. -/
def connectDB (nodeEnv : String) (probeOk : Bool) : List String × Bool :=
  let ut := useTransactions nodeEnv
  if ut then
    if probeOk then
      (["MongoDB transaction support verified"], ut)
    else
      (["MongoDB transaction support unavailable:",
        "Running in fallback mode without transaction support. NOT recommended for production!"],
       ut)
  else
    (["Running in development mode without transaction support"], ut)

/-- Input of `TransactionService.deposit` (the opaque metadata map is not
modelled). -/
structure DepositInput where
  userId : Nat
  accountId : Nat
  amount : Int
  currency : String
  description : String

/-- Input of `TransactionService.withdraw`. -/
structure WithdrawalInput where
  userId : Nat
  accountId : Nat
  amount : Int
  currency : String
  description : String

/-- Input of `TransactionService.transfer`. -/
structure TransferInput where
  userId : Nat
  sourceAccountId : Nat
  destinationAccountId : Nat
  amount : Int
  currency : String
  description : String

/-- Input of `AccountService.createAccount`; `initialBalance` is optional
and the source evaluates `accountData.initialBalance || 0`. -/
structure CreateAccountInput where
  userId : Nat
  name : String
  type : AccountType
  currency : String
  initialBalance : Option Int

/-- `AccountService.createAccount`: builds an active account with balance
and available balance both set to `initialBalance || 0` and saves it.  No
ledger entry is written.  `accountNumber` stands in for the randomly
generated unique number. -/
def createAccount (st : Store) (o : Nat → Bool) (accountNumber : String)
    (inp : CreateAccountInput) : Store × Except LedgerError Account :=
  let account : Account :=
    { accId := st.nextId
      userId := inp.userId
      accountNumber := accountNumber
      name := inp.name
      type := inp.type
      currency := inp.currency
      balance := inp.initialBalance.getD 0
      availableBalance := inp.initialBalance.getD 0
      status := AccountStatus.active }
  if o 0 then
    (saveAccount { st with nextId := st.nextId + 1 } account, Except.ok account)
  else
    (st, Except.error LedgerError.storeError)

/-- `TransactionService.depositWithTransaction`: the whole write sequence
(pending transaction, debit ledger entry, account balances, completed
transaction, commit) runs inside one mongoose session; a failure at any of
those five points aborts the session, so the store is returned unchanged. -/
def depositWithTransaction (st : Store) (o : Nat → Bool) (inp : DepositInput)
    (txnId : String) (now : Nat) : Store × Except LedgerError Transaction :=
  match findOneAccountOwned st inp.accountId inp.userId with
  | none => (st, Except.error (LedgerError.appError "Account not found"))
  | some account =>
    if account.currency ≠ inp.currency then
      (st, Except.error (LedgerError.appError "Currency mismatch"))
    else
      let tx : Transaction :=
        { id := st.nextId
          transactionId := txnId
          userId := inp.userId
          type := TransactionType.deposit
          amount := inp.amount
          currency := inp.currency
          sourceAccountId := none
          destinationAccountId := some inp.accountId
          description := inp.description
          status := TransactionStatus.pending
          completedAt := none }
      if o 0 then
        let sess1 := saveTransaction { st with nextId := st.nextId + 1 } tx
        let entry : LedgerEntry :=
          { transactionId := tx.id
            accountId := inp.accountId
            type := EntryType.debit
            amount := inp.amount
            currency := inp.currency
            balance := account.balance + inp.amount
            description := "Deposit: " ++ inp.description }
        if o 1 then
          let sess2 := appendEntry sess1 entry
          let account2 :=
            { account with
                balance := account.balance + inp.amount
                availableBalance := account.availableBalance + inp.amount }
          if o 2 then
            let sess3 := saveAccount sess2 account2
            let tx2 :=
              { tx with
                  status := TransactionStatus.completed
                  completedAt := some now }
            if o 3 then
              let sess4 := saveTransaction sess3 tx2
              if o 4 then (sess4, Except.ok tx2)
              else (st, Except.error LedgerError.storeError)
            else (st, Except.error LedgerError.storeError)
          else (st, Except.error LedgerError.storeError)
        else (st, Except.error LedgerError.storeError)
      else (st, Except.error LedgerError.storeError)

/-- `TransactionService.depositWithoutTransaction`: the same checks and
write sequence, but applied as independent sequential writes with no
session; a failure partway leaves the earlier writes durably visible. -/
def depositWithoutTransaction (st : Store) (o : Nat → Bool) (inp : DepositInput)
    (txnId : String) (now : Nat) : Store × Except LedgerError Transaction :=
  match findOneAccountOwned st inp.accountId inp.userId with
  | none => (st, Except.error (LedgerError.appError "Account not found"))
  | some account =>
    if account.currency ≠ inp.currency then
      (st, Except.error (LedgerError.appError "Currency mismatch"))
    else
      let tx : Transaction :=
        { id := st.nextId
          transactionId := txnId
          userId := inp.userId
          type := TransactionType.deposit
          amount := inp.amount
          currency := inp.currency
          sourceAccountId := none
          destinationAccountId := some inp.accountId
          description := inp.description
          status := TransactionStatus.pending
          completedAt := none }
      if o 0 then
        let st1 := saveTransaction { st with nextId := st.nextId + 1 } tx
        let entry : LedgerEntry :=
          { transactionId := tx.id
            accountId := inp.accountId
            type := EntryType.debit
            amount := inp.amount
            currency := inp.currency
            balance := account.balance + inp.amount
            description := "Deposit: " ++ inp.description }
        if o 1 then
          let st2 := appendEntry st1 entry
          let account2 :=
            { account with
                balance := account.balance + inp.amount
                availableBalance := account.availableBalance + inp.amount }
          if o 2 then
            let st3 := saveAccount st2 account2
            let tx2 :=
              { tx with
                  status := TransactionStatus.completed
                  completedAt := some now }
            if o 3 then (saveTransaction st3 tx2, Except.ok tx2)
            else (st3, Except.error LedgerError.storeError)
          else (st2, Except.error LedgerError.storeError)
        else (st1, Except.error LedgerError.storeError)
      else (st, Except.error LedgerError.storeError)

/-- `TransactionService.deposit`: the only write operation that consults the
`useTransactions` flag, dispatching to the session or the sequential
variant. -/
def deposit (st : Store) (o : Nat → Bool) (useTx : Bool) (inp : DepositInput)
    (txnId : String) (now : Nat) : Store × Except LedgerError Transaction :=
  if useTx then depositWithTransaction st o inp txnId now
  else depositWithoutTransaction st o inp txnId now

/-- `TransactionService.withdraw`: always runs inside a mongoose session
(the source starts a session unconditionally and never reads
`useTransactions` here).  Checks: account owned, currency match, available
balance at least the amount; then pending transaction, credit ledger entry,
balance decrement, completed transaction, commit — abort on any failure. -/
def withdraw (st : Store) (o : Nat → Bool) (inp : WithdrawalInput)
    (txnId : String) (now : Nat) : Store × Except LedgerError Transaction :=
  match findOneAccountOwned st inp.accountId inp.userId with
  | none => (st, Except.error (LedgerError.appError "Account not found"))
  | some account =>
    if account.currency ≠ inp.currency then
      (st, Except.error (LedgerError.appError "Currency mismatch"))
    else if account.availableBalance < inp.amount then
      (st, Except.error (LedgerError.appError "Insufficient funds"))
    else
      let tx : Transaction :=
        { id := st.nextId
          transactionId := txnId
          userId := inp.userId
          type := TransactionType.withdrawal
          amount := inp.amount
          currency := inp.currency
          sourceAccountId := some inp.accountId
          destinationAccountId := none
          description := inp.description
          status := TransactionStatus.pending
          completedAt := none }
      if o 0 then
        let sess1 := saveTransaction { st with nextId := st.nextId + 1 } tx
        let entry : LedgerEntry :=
          { transactionId := tx.id
            accountId := inp.accountId
            type := EntryType.credit
            amount := inp.amount
            currency := inp.currency
            balance := account.balance - inp.amount
            description := "Withdrawal: " ++ inp.description }
        if o 1 then
          let sess2 := appendEntry sess1 entry
          let account2 :=
            { account with
                balance := account.balance - inp.amount
                availableBalance := account.availableBalance - inp.amount }
          if o 2 then
            let sess3 := saveAccount sess2 account2
            let tx2 :=
              { tx with
                  status := TransactionStatus.completed
                  completedAt := some now }
            if o 3 then
              let sess4 := saveTransaction sess3 tx2
              if o 4 then (sess4, Except.ok tx2)
              else (st, Except.error LedgerError.storeError)
            else (st, Except.error LedgerError.storeError)
          else (st, Except.error LedgerError.storeError)
        else (st, Except.error LedgerError.storeError)
      else (st, Except.error LedgerError.storeError)

/-- `TransactionService.transfer`: always runs inside a mongoose session.
The source account is loaded scoped to the caller
(`findOne({ _id, userId })`); the destination by id alone
(`findOne({ _id })`).  Writes: pending transaction, credit entry on the
source (snapshot old source balance minus amount), debit entry on the
destination (snapshot old destination balance plus amount), source save,
destination save, completed transaction, commit — abort on any failure. -/
def transfer (st : Store) (o : Nat → Bool) (inp : TransferInput)
    (txnId : String) (now : Nat) : Store × Except LedgerError Transaction :=
  match findOneAccountOwned st inp.sourceAccountId inp.userId with
  | none => (st, Except.error (LedgerError.appError "Source account not found"))
  | some sourceAccount =>
    match findOneAccount st inp.destinationAccountId with
    | none => (st, Except.error (LedgerError.appError "Destination account not found"))
    | some destinationAccount =>
      if sourceAccount.currency ≠ inp.currency then
        (st, Except.error (LedgerError.appError "Source account currency mismatch"))
      else if destinationAccount.currency ≠ inp.currency then
        (st, Except.error (LedgerError.appError "Destination account currency mismatch"))
      else if sourceAccount.availableBalance < inp.amount then
        (st, Except.error (LedgerError.appError "Insufficient funds"))
      else
        let tx : Transaction :=
          { id := st.nextId
            transactionId := txnId
            userId := inp.userId
            type := TransactionType.transfer
            amount := inp.amount
            currency := inp.currency
            sourceAccountId := some inp.sourceAccountId
            destinationAccountId := some inp.destinationAccountId
            description := inp.description
            status := TransactionStatus.pending
            completedAt := none }
        if o 0 then
          let sess1 := saveTransaction { st with nextId := st.nextId + 1 } tx
          let creditEntry : LedgerEntry :=
            { transactionId := tx.id
              accountId := inp.sourceAccountId
              type := EntryType.credit
              amount := inp.amount
              currency := inp.currency
              balance := sourceAccount.balance - inp.amount
              description := "Transfer Out: " ++ inp.description }
          if o 1 then
            let sess2 := appendEntry sess1 creditEntry
            let debitEntry : LedgerEntry :=
              { transactionId := tx.id
                accountId := inp.destinationAccountId
                type := EntryType.debit
                amount := inp.amount
                currency := inp.currency
                balance := destinationAccount.balance + inp.amount
                description := "Transfer In: " ++ inp.description }
            if o 2 then
              let sess3 := appendEntry sess2 debitEntry
              let sourceAccount2 :=
                { sourceAccount with
                    balance := sourceAccount.balance - inp.amount
                    availableBalance := sourceAccount.availableBalance - inp.amount }
              if o 3 then
                let sess4 := saveAccount sess3 sourceAccount2
                let destinationAccount2 :=
                  { destinationAccount with
                      balance := destinationAccount.balance + inp.amount
                      availableBalance := destinationAccount.availableBalance + inp.amount }
                if o 4 then
                  let sess5 := saveAccount sess4 destinationAccount2
                  let tx2 :=
                    { tx with
                        status := TransactionStatus.completed
                        completedAt := some now }
                  if o 5 then
                    let sess6 := saveTransaction sess5 tx2
                    if o 6 then (sess6, Except.ok tx2)
                    else (st, Except.error LedgerError.storeError)
                  else (st, Except.error LedgerError.storeError)
                else (st, Except.error LedgerError.storeError)
              else (st, Except.error LedgerError.storeError)
            else (st, Except.error LedgerError.storeError)
          else (st, Except.error LedgerError.storeError)
        else (st, Except.error LedgerError.storeError)

/-- `AccountService.closeAccountWithTransaction`: load owned account, refuse
unless the balance is exactly zero, set status to closed, save, commit —
inside a session, abort on failure. -/
def closeAccountWithTransaction (st : Store) (o : Nat → Bool)
    (accId userId : Nat) : Store × Except LedgerError Account :=
  match findOneAccountOwned st accId userId with
  | none => (st, Except.error (LedgerError.appError "Account not found"))
  | some account =>
    if account.balance ≠ 0 then
      (st, Except.error (LedgerError.appError "Account must have zero balance to be closed"))
    else
      let account2 := { account with status := AccountStatus.closed }
      if o 0 then
        let sess1 := saveAccount st account2
        if o 1 then (sess1, Except.ok account2)
        else (st, Except.error LedgerError.storeError)
      else (st, Except.error LedgerError.storeError)

/-- `AccountService.closeAccountWithoutTransaction`: same checks and the
single status write, without a session. -/
def closeAccountWithoutTransaction (st : Store) (o : Nat → Bool)
    (accId userId : Nat) : Store × Except LedgerError Account :=
  match findOneAccountOwned st accId userId with
  | none => (st, Except.error (LedgerError.appError "Account not found"))
  | some account =>
    if account.balance ≠ 0 then
      (st, Except.error (LedgerError.appError "Account must have zero balance to be closed"))
    else
      let account2 := { account with status := AccountStatus.closed }
      if o 0 then (saveAccount st account2, Except.ok account2)
      else (st, Except.error LedgerError.storeError)

/-- `AccountService.closeAccount`: dispatches on the `useTransactions`
flag. -/
def closeAccount (st : Store) (o : Nat → Bool) (useTx : Bool)
    (accId userId : Nat) : Store × Except LedgerError Account :=
  if useTx then closeAccountWithTransaction st o accId userId
  else closeAccountWithoutTransaction st o accId userId

/-- Best-effort withdrawal strategy as the specification describes it
(section 4.2): the same validation and write sequence as `withdraw`, but as
independent sequential writes with no atomic scope, so a failure partway
leaves the earlier writes (for instance a pending transaction with no
matching ledger entry) durably visible.  This definition follows the
specification text and exists to be compared with the source `withdraw`,
which the code never routes through such a path. -/
def withdrawBestEffort (st : Store) (o : Nat → Bool) (inp : WithdrawalInput)
    (txnId : String) (now : Nat) : Store × Except LedgerError Transaction :=
  match findOneAccountOwned st inp.accountId inp.userId with
  | none => (st, Except.error (LedgerError.appError "Account not found"))
  | some account =>
    if account.currency ≠ inp.currency then
      (st, Except.error (LedgerError.appError "Currency mismatch"))
    else if account.availableBalance < inp.amount then
      (st, Except.error (LedgerError.appError "Insufficient funds"))
    else
      let tx : Transaction :=
        { id := st.nextId
          transactionId := txnId
          userId := inp.userId
          type := TransactionType.withdrawal
          amount := inp.amount
          currency := inp.currency
          sourceAccountId := some inp.accountId
          destinationAccountId := none
          description := inp.description
          status := TransactionStatus.pending
          completedAt := none }
      if o 0 then
        let st1 := saveTransaction { st with nextId := st.nextId + 1 } tx
        let entry : LedgerEntry :=
          { transactionId := tx.id
            accountId := inp.accountId
            type := EntryType.credit
            amount := inp.amount
            currency := inp.currency
            balance := account.balance - inp.amount
            description := "Withdrawal: " ++ inp.description }
        if o 1 then
          let st2 := appendEntry st1 entry
          let account2 :=
            { account with
                balance := account.balance - inp.amount
                availableBalance := account.availableBalance - inp.amount }
          if o 2 then
            let st3 := saveAccount st2 account2
            let tx2 :=
              { tx with
                  status := TransactionStatus.completed
                  completedAt := some now }
            if o 3 then (saveTransaction st3 tx2, Except.ok tx2)
            else (st3, Except.error LedgerError.storeError)
          else (st2, Except.error LedgerError.storeError)
        else (st1, Except.error LedgerError.storeError)
      else (st, Except.error LedgerError.storeError)

/-- The signed value of a ledger entry: debit amounts count positive,
credit amounts negative (asset-account convention, spec sections 3 and 8). -/
def signedAmount (e : LedgerEntry) : Int :=
  match e.type with
  | EntryType.debit => e.amount
  | EntryType.credit => -e.amount

/-- Sum of the signed ledger entries recorded against one account. -/
def entrySum (entries : List LedgerEntry) (accId : Nat) : Int :=
  ((entries.filter fun e => e.accountId == accId).map signedAmount).sum

/-- States reachable from the empty database by account creation (for
creation inputs satisfying `P`) followed by any sequence of successful
deposits, withdrawals and transfers, under either execution mode and any
store-failure oracle.  Transfer steps carry the
source-distinct-from-destination condition that the input-validation
boundary (`validateTransferInput`) enforces before the service runs. -/
inductive ReachableFrom (P : CreateAccountInput → Prop) : Store → Prop where
  | init : ReachableFrom P emptyStore
  | create (st : Store) (o : Nat → Bool) (accountNumber : String)
      (inp : CreateAccountInput) (a : Account)
      (hst : ReachableFrom P st) (hP : P inp)
      (hok : (createAccount st o accountNumber inp).2 = Except.ok a) :
      ReachableFrom P (createAccount st o accountNumber inp).1
  | dep (st : Store) (o : Nat → Bool) (useTx : Bool) (inp : DepositInput)
      (txnId : String) (now : Nat) (tx : Transaction)
      (hst : ReachableFrom P st)
      (hok : (deposit st o useTx inp txnId now).2 = Except.ok tx) :
      ReachableFrom P (deposit st o useTx inp txnId now).1
  | wd (st : Store) (o : Nat → Bool) (inp : WithdrawalInput)
      (txnId : String) (now : Nat) (tx : Transaction)
      (hst : ReachableFrom P st)
      (hok : (withdraw st o inp txnId now).2 = Except.ok tx) :
      ReachableFrom P (withdraw st o inp txnId now).1
  | tr (st : Store) (o : Nat → Bool) (inp : TransferInput)
      (txnId : String) (now : Nat) (tx : Transaction)
      (hst : ReachableFrom P st)
      (hne : inp.sourceAccountId ≠ inp.destinationAccountId)
      (hok : (transfer st o inp txnId now).2 = Except.ok tx) :
      ReachableFrom P (transfer st o inp txnId now).1

/-- Reachability with arbitrary creation inputs, as claim C2 quantifies. -/
def Reachable : Store → Prop :=
  ReachableFrom fun _ => True

/-- Reachability where every account is created with zero initial balance
(`initialBalance` absent or zero), as spec section 3 describes creation. -/
def ReachableZeroInit : Store → Prop :=
  ReachableFrom fun inp => inp.initialBalance.getD 0 = 0

/-- A session-scoped withdrawal that reports an error leaves the store
untouched: every failure point aborts the mongoose session. -/
lemma withdraw_error_eq {st : Store} {o : Nat → Bool} {inp : WithdrawalInput}
    {txnId : String} {now : Nat} {e : LedgerError}
    (h : (withdraw st o inp txnId now).2 = Except.error e) :
    (withdraw st o inp txnId now).1 = st := by
  revert h
  unfold withdraw
  split
  · intro _; rfl
  · repeat' split
    all_goals intro h
    all_goals first
      | rfl
      | simp at h

/-- A session-scoped deposit that reports an error leaves the store
untouched. -/
lemma depositWithTransaction_error_eq {st : Store} {o : Nat → Bool}
    {inp : DepositInput} {txnId : String} {now : Nat} {e : LedgerError}
    (h : (depositWithTransaction st o inp txnId now).2 = Except.error e) :
    (depositWithTransaction st o inp txnId now).1 = st := by
  revert h
  unfold depositWithTransaction
  split
  · intro _; rfl
  · repeat' split
    all_goals intro h
    all_goals first
      | rfl
      | simp at h

set_option maxHeartbeats 2000000 in
/-- A transfer that reports an error leaves the store untouched. -/
lemma transfer_error_eq {st : Store} {o : Nat → Bool} {inp : TransferInput}
    {txnId : String} {now : Nat} {e : LedgerError}
    (h : (transfer st o inp txnId now).2 = Except.error e) :
    (transfer st o inp txnId now).1 = st := by
  revert h
  unfold transfer
  split
  · intro _; rfl
  · split
    · intro _; rfl
    · repeat' split
      all_goals intro h
      all_goals first
        | rfl
        | simp at h

/-- Characterization of a successful withdrawal: the account was found
under the caller, currencies matched, funds sufficed, and the result is the
completed transaction, one appended credit entry, and the decremented
account written back. -/
lemma withdraw_ok_shape {st : Store} {o : Nat → Bool} {inp : WithdrawalInput}
    {txnId : String} {now : Nat} {st' : Store} {tx : Transaction}
    (h : withdraw st o inp txnId now = (st', Except.ok tx)) :
    ∃ account, findOneAccountOwned st inp.accountId inp.userId = some account ∧
      account.currency = inp.currency ∧
      ¬ account.availableBalance < inp.amount ∧
      tx = { id := st.nextId, transactionId := txnId, userId := inp.userId,
             type := TransactionType.withdrawal, amount := inp.amount,
             currency := inp.currency, sourceAccountId := some inp.accountId,
             destinationAccountId := none, description := inp.description,
             status := TransactionStatus.completed, completedAt := some now } ∧
      st'.nextId = st.nextId + 1 ∧
      st'.entries = st.entries ++
        [{ transactionId := st.nextId, accountId := inp.accountId,
           type := EntryType.credit, amount := inp.amount, currency := inp.currency,
           balance := account.balance - inp.amount,
           description := "Withdrawal: " ++ inp.description }] ∧
      (∀ i, st'.accounts i =
        if i = account.accId
        then some { account with
                     balance := account.balance - inp.amount,
                     availableBalance := account.availableBalance - inp.amount }
        else st.accounts i) ∧
      (∀ i, st'.transactions i =
        if i = st.nextId then some tx else st.transactions i) := by
  revert h
  unfold withdraw
  split
  · intro h; simp at h
  next account hfind =>
    repeat' split
    all_goals intro h
    all_goals try (exfalso; simp at h; done)
    rename_i hcur havail h0 h1 h2 h3 h4
    rw [Prod.mk.injEq] at h
    obtain ⟨hst, htx⟩ := h
    injection htx with htx
    subst htx
    subst hst
    refine ⟨account, hfind, not_not.mp hcur, havail, rfl, rfl, rfl, ?_, ?_⟩
    · intro i
      by_cases hi : i = account.accId <;>
        simp [hi, saveTransaction, saveAccount, appendEntry]
    · intro i
      by_cases hi : i = st.nextId <;>
        simp [hi, saveTransaction, saveAccount, appendEntry]

/-- Characterization of a successful session-scoped deposit. -/
lemma depositWithTransaction_ok_shape {st : Store} {o : Nat → Bool}
    {inp : DepositInput} {txnId : String} {now : Nat} {st' : Store}
    {tx : Transaction}
    (h : depositWithTransaction st o inp txnId now = (st', Except.ok tx)) :
    ∃ account, findOneAccountOwned st inp.accountId inp.userId = some account ∧
      account.currency = inp.currency ∧
      tx = { id := st.nextId, transactionId := txnId, userId := inp.userId,
             type := TransactionType.deposit, amount := inp.amount,
             currency := inp.currency, sourceAccountId := none,
             destinationAccountId := some inp.accountId,
             description := inp.description,
             status := TransactionStatus.completed, completedAt := some now } ∧
      st'.nextId = st.nextId + 1 ∧
      st'.entries = st.entries ++
        [{ transactionId := st.nextId, accountId := inp.accountId,
           type := EntryType.debit, amount := inp.amount, currency := inp.currency,
           balance := account.balance + inp.amount,
           description := "Deposit: " ++ inp.description }] ∧
      (∀ i, st'.accounts i =
        if i = account.accId
        then some { account with
                     balance := account.balance + inp.amount,
                     availableBalance := account.availableBalance + inp.amount }
        else st.accounts i) ∧
      (∀ i, st'.transactions i =
        if i = st.nextId then some tx else st.transactions i) := by
  revert h
  unfold depositWithTransaction
  split
  · intro h; simp at h
  next account hfind =>
    repeat' split
    all_goals intro h
    all_goals try (exfalso; simp at h; done)
    rename_i hcur h0 h1 h2 h3 h4
    rw [Prod.mk.injEq] at h
    obtain ⟨hst, htx⟩ := h
    injection htx with htx
    subst htx
    subst hst
    refine ⟨account, hfind, not_not.mp hcur, rfl, rfl, rfl, ?_, ?_⟩
    · intro i
      by_cases hi : i = account.accId <;>
        simp [hi, saveTransaction, saveAccount, appendEntry]
    · intro i
      by_cases hi : i = st.nextId <;>
        simp [hi, saveTransaction, saveAccount, appendEntry]

/-- Characterization of a successful sequential (no-session) deposit: the
observable result coincides with the session variant when every write
succeeds. -/
lemma depositWithoutTransaction_ok_shape {st : Store} {o : Nat → Bool}
    {inp : DepositInput} {txnId : String} {now : Nat} {st' : Store}
    {tx : Transaction}
    (h : depositWithoutTransaction st o inp txnId now = (st', Except.ok tx)) :
    ∃ account, findOneAccountOwned st inp.accountId inp.userId = some account ∧
      account.currency = inp.currency ∧
      tx = { id := st.nextId, transactionId := txnId, userId := inp.userId,
             type := TransactionType.deposit, amount := inp.amount,
             currency := inp.currency, sourceAccountId := none,
             destinationAccountId := some inp.accountId,
             description := inp.description,
             status := TransactionStatus.completed, completedAt := some now } ∧
      st'.nextId = st.nextId + 1 ∧
      st'.entries = st.entries ++
        [{ transactionId := st.nextId, accountId := inp.accountId,
           type := EntryType.debit, amount := inp.amount, currency := inp.currency,
           balance := account.balance + inp.amount,
           description := "Deposit: " ++ inp.description }] ∧
      (∀ i, st'.accounts i =
        if i = account.accId
        then some { account with
                     balance := account.balance + inp.amount,
                     availableBalance := account.availableBalance + inp.amount }
        else st.accounts i) ∧
      (∀ i, st'.transactions i =
        if i = st.nextId then some tx else st.transactions i) := by
  revert h
  unfold depositWithoutTransaction
  split
  · intro h; simp at h
  next account hfind =>
    repeat' split
    all_goals intro h
    all_goals try (exfalso; simp at h; done)
    rename_i hcur h0 h1 h2 h3
    rw [Prod.mk.injEq] at h
    obtain ⟨hst, htx⟩ := h
    injection htx with htx
    subst htx
    subst hst
    refine ⟨account, hfind, not_not.mp hcur, rfl, rfl, rfl, ?_, ?_⟩
    · intro i
      by_cases hi : i = account.accId <;>
        simp [hi, saveTransaction, saveAccount, appendEntry]
    · intro i
      by_cases hi : i = st.nextId <;>
        simp [hi, saveTransaction, saveAccount, appendEntry]

/-- Characterization of a successful deposit through the dispatching entry
point, in either execution mode. -/
lemma deposit_ok_shape {st : Store} {o : Nat → Bool} {useTx : Bool}
    {inp : DepositInput} {txnId : String} {now : Nat} {st' : Store}
    {tx : Transaction}
    (h : deposit st o useTx inp txnId now = (st', Except.ok tx)) :
    ∃ account, findOneAccountOwned st inp.accountId inp.userId = some account ∧
      account.currency = inp.currency ∧
      tx = { id := st.nextId, transactionId := txnId, userId := inp.userId,
             type := TransactionType.deposit, amount := inp.amount,
             currency := inp.currency, sourceAccountId := none,
             destinationAccountId := some inp.accountId,
             description := inp.description,
             status := TransactionStatus.completed, completedAt := some now } ∧
      st'.nextId = st.nextId + 1 ∧
      st'.entries = st.entries ++
        [{ transactionId := st.nextId, accountId := inp.accountId,
           type := EntryType.debit, amount := inp.amount, currency := inp.currency,
           balance := account.balance + inp.amount,
           description := "Deposit: " ++ inp.description }] ∧
      (∀ i, st'.accounts i =
        if i = account.accId
        then some { account with
                     balance := account.balance + inp.amount,
                     availableBalance := account.availableBalance + inp.amount }
        else st.accounts i) ∧
      (∀ i, st'.transactions i =
        if i = st.nextId then some tx else st.transactions i) := by
  unfold deposit at h
  split at h
  · exact depositWithTransaction_ok_shape h
  · exact depositWithoutTransaction_ok_shape h

set_option maxHeartbeats 4000000 in
/-- Characterization of a successful transfer: source found under the
caller, destination found by id alone, both currencies match, source funds
suffice; the result is the completed transaction, an appended credit entry
on the source and debit entry on the destination (both referencing the
transaction id), and both accounts written back — the destination written
last, so it wins if the two ids coincide. -/
lemma transfer_ok_shape {st : Store} {o : Nat → Bool} {inp : TransferInput}
    {txnId : String} {now : Nat} {st' : Store} {tx : Transaction}
    (h : transfer st o inp txnId now = (st', Except.ok tx)) :
    ∃ src dest,
      findOneAccountOwned st inp.sourceAccountId inp.userId = some src ∧
      findOneAccount st inp.destinationAccountId = some dest ∧
      src.currency = inp.currency ∧
      dest.currency = inp.currency ∧
      ¬ src.availableBalance < inp.amount ∧
      tx = { id := st.nextId, transactionId := txnId, userId := inp.userId,
             type := TransactionType.transfer, amount := inp.amount,
             currency := inp.currency,
             sourceAccountId := some inp.sourceAccountId,
             destinationAccountId := some inp.destinationAccountId,
             description := inp.description,
             status := TransactionStatus.completed, completedAt := some now } ∧
      st'.nextId = st.nextId + 1 ∧
      st'.entries = st.entries ++
        [{ transactionId := st.nextId, accountId := inp.sourceAccountId,
           type := EntryType.credit, amount := inp.amount, currency := inp.currency,
           balance := src.balance - inp.amount,
           description := "Transfer Out: " ++ inp.description },
         { transactionId := st.nextId, accountId := inp.destinationAccountId,
           type := EntryType.debit, amount := inp.amount, currency := inp.currency,
           balance := dest.balance + inp.amount,
           description := "Transfer In: " ++ inp.description }] ∧
      (∀ i, st'.accounts i =
        if i = dest.accId
        then some { dest with
                     balance := dest.balance + inp.amount,
                     availableBalance := dest.availableBalance + inp.amount }
        else if i = src.accId
        then some { src with
                     balance := src.balance - inp.amount,
                     availableBalance := src.availableBalance - inp.amount }
        else st.accounts i) ∧
      (∀ i, st'.transactions i =
        if i = st.nextId then some tx else st.transactions i) := by
  revert h
  unfold transfer
  split
  · intro h; simp at h
  next src hsrc =>
    split
    · intro h; simp at h
    next dest hdst =>
      repeat' split
      all_goals intro h
      all_goals try (exfalso; simp at h; done)
      rename_i hc1 hc2 hav h0 h1 h2 h3 h4 h5 h6
      rw [Prod.mk.injEq] at h
      obtain ⟨hst, htx⟩ := h
      injection htx with htx
      subst htx
      subst hst
      refine ⟨src, dest, hsrc, hdst, not_not.mp hc1, not_not.mp hc2, hav,
        rfl, rfl, ?_, ?_, ?_⟩
      · simp [saveTransaction, saveAccount, appendEntry]
      · intro i
        by_cases hi : i = dest.accId <;> by_cases hj : i = src.accId <;>
          simp [hi, hj, saveTransaction, saveAccount, appendEntry]
      · intro i
        by_cases hi : i = st.nextId <;>
          simp [hi, saveTransaction, saveAccount, appendEntry]

/-- Characterization of a successful account creation: an active account
with balance and available balance equal to the requested initial balance
(defaulting to zero), stored under the freshly allocated id; no ledger
entry and no transaction is written. -/
lemma createAccount_ok_shape {st : Store} {o : Nat → Bool}
    {accountNumber : String} {inp : CreateAccountInput} {st' : Store}
    {a : Account}
    (h : createAccount st o accountNumber inp = (st', Except.ok a)) :
    a = { accId := st.nextId, userId := inp.userId,
          accountNumber := accountNumber, name := inp.name, type := inp.type,
          currency := inp.currency, balance := inp.initialBalance.getD 0,
          availableBalance := inp.initialBalance.getD 0,
          status := AccountStatus.active } ∧
      st'.nextId = st.nextId + 1 ∧
      st'.entries = st.entries ∧
      st'.transactions = st.transactions ∧
      (∀ i, st'.accounts i =
        if i = st.nextId then some a else st.accounts i) := by
  revert h
  unfold createAccount
  split
  · intro h
    rw [Prod.mk.injEq] at h
    obtain ⟨hst, ha⟩ := h
    injection ha with ha
    subst ha
    subst hst
    refine ⟨rfl, rfl, rfl, rfl, ?_⟩
    intro i
    by_cases hi : i = st.nextId <;> simp [hi, saveAccount]
  · intro h; simp at h

lemma entrySum_append (l1 l2 : List LedgerEntry) (i : Nat) :
    entrySum (l1 ++ l2) i = entrySum l1 i + entrySum l2 i := by
  simp [entrySum, List.filter_append]

lemma entrySum_single (e : LedgerEntry) (i : Nat) :
    entrySum [e] i = if e.accountId = i then signedAmount e else 0 := by
  unfold entrySum
  rw [List.filter_singleton]
  by_cases hi : e.accountId = i
  · simp [hi]
  · have hb : (e.accountId == i) = false := by simpa using hi
    simp [hi, hb]

lemma entrySum_pair (e1 e2 : LedgerEntry) (i : Nat) :
    entrySum [e1, e2] i =
      (if e1.accountId = i then signedAmount e1 else 0) +
      (if e2.accountId = i then signedAmount e2 else 0) := by
  have h : ([e1, e2] : List LedgerEntry) = [e1] ++ [e2] := rfl
  rw [h, entrySum_append, entrySum_single, entrySum_single]

lemma entrySum_eq_zero {entries : List LedgerEntry} {i : Nat}
    (h : ∀ e ∈ entries, e.accountId ≠ i) : entrySum entries i = 0 := by
  unfold entrySum
  have hf : entries.filter (fun e => e.accountId == i) = [] := by
    rw [List.filter_eq_nil_iff]
    intro e he
    simp [h e he]
  rw [hf]
  rfl

/-- The store invariant maintained by the implemented operations on stores
whose accounts were all created with zero initial balance: ids are
allocated below the counter, every account document sits under its own id,
ledger entries point at allocated ids, and each account balance equals the
running sum of its signed ledger entries. -/
structure StoreInv (st : Store) : Prop where
  accLt : ∀ i a, st.accounts i = some a → i < st.nextId
  accKey : ∀ i a, st.accounts i = some a → a.accId = i
  entLt : ∀ e ∈ st.entries, e.accountId < st.nextId
  balSum : ∀ i a, st.accounts i = some a → entrySum st.entries i = a.balance

lemma findOneAccountOwned_eq_some {st : Store} {accId userId : Nat}
    {account : Account}
    (h : findOneAccountOwned st accId userId = some account) :
    st.accounts accId = some account ∧ account.userId = userId := by
  unfold findOneAccountOwned at h
  split at h
  case h_2 => simp at h
  case h_1 b hs =>
    by_cases hu : b.userId = userId
    · rw [if_pos hu] at h
      injection h with h
      subst h
      exact ⟨hs, hu⟩
    · rw [if_neg hu] at h
      simp at h

lemma storeInv_empty : StoreInv emptyStore := by
  constructor <;> intro i <;> simp [emptyStore] at *

lemma storeInv_createAccount {st st' : Store} {o : Nat → Bool}
    {accountNumber : String} {inp : CreateAccountInput} {a : Account}
    (hinv : StoreInv st) (hz : inp.initialBalance.getD 0 = 0)
    (h : createAccount st o accountNumber inp = (st', Except.ok a)) :
    StoreInv st' := by
  obtain ⟨ha, hnext, hent, htxs, hacc⟩ := createAccount_ok_shape h
  constructor
  · intro i b hb
    rw [hacc i] at hb
    split at hb
    · omega
    · have := hinv.accLt i b hb
      omega
  · intro i b hb
    rw [hacc i] at hb
    split at hb
    · cases hb
      rename_i hi
      simp [ha, hi]
    · exact hinv.accKey i b hb
  · intro e he
    rw [hent] at he
    have := hinv.entLt e he
    omega
  · intro i b hb
    rw [hacc i] at hb
    rw [hent]
    split at hb
    · cases hb
      rename_i hi
      subst hi
      rw [entrySum_eq_zero]
      · simp [ha, hz]
      · intro e he
        have := hinv.entLt e he
        omega
    · exact hinv.balSum i b hb

lemma storeInv_deposit {st st' : Store} {o : Nat → Bool} {useTx : Bool}
    {inp : DepositInput} {txnId : String} {now : Nat} {tx : Transaction}
    (hinv : StoreInv st)
    (h : deposit st o useTx inp txnId now = (st', Except.ok tx)) :
    StoreInv st' := by
  obtain ⟨account, hfind, hcur, htx, hnext, hent, hacc, htxs⟩ :=
    deposit_ok_shape h
  obtain ⟨hacct, huser⟩ := findOneAccountOwned_eq_some hfind
  have hkey : account.accId = inp.accountId := hinv.accKey _ _ hacct
  have hlt : inp.accountId < st.nextId := hinv.accLt _ _ hacct
  constructor
  · intro i b hb
    rw [hacc i] at hb
    split at hb
    · omega
    · have := hinv.accLt i b hb
      omega
  · intro i b hb
    rw [hacc i] at hb
    split at hb
    · cases hb
      rename_i hi
      simp [hi]
    · exact hinv.accKey i b hb
  · intro e he
    rw [hent] at he
    rw [List.mem_append] at he
    rcases he with he | he
    · have := hinv.entLt e he
      omega
    · rw [List.mem_singleton] at he
      subst he
      have hia : inp.accountId < st'.nextId := by omega
      simpa using hia
  · intro i b hb
    rw [hacc i] at hb
    rw [hent, entrySum_append, entrySum_single]
    split at hb
    · cases hb
      rename_i hi
      subst hi
      have hbs := hinv.balSum inp.accountId account hacct
      simp [signedAmount, hkey, hbs]
    · rename_i hi
      have hbs := hinv.balSum i b hb
      have hne : inp.accountId ≠ i := by
        rw [← hkey]
        exact fun hc => hi hc.symm
      simp [hne, hbs]

lemma storeInv_withdraw {st st' : Store} {o : Nat → Bool}
    {inp : WithdrawalInput} {txnId : String} {now : Nat} {tx : Transaction}
    (hinv : StoreInv st)
    (h : withdraw st o inp txnId now = (st', Except.ok tx)) :
    StoreInv st' := by
  obtain ⟨account, hfind, hcur, hav, htx, hnext, hent, hacc, htxs⟩ :=
    withdraw_ok_shape h
  obtain ⟨hacct, huser⟩ := findOneAccountOwned_eq_some hfind
  have hkey : account.accId = inp.accountId := hinv.accKey _ _ hacct
  have hlt : inp.accountId < st.nextId := hinv.accLt _ _ hacct
  constructor
  · intro i b hb
    rw [hacc i] at hb
    split at hb
    · omega
    · have := hinv.accLt i b hb
      omega
  · intro i b hb
    rw [hacc i] at hb
    split at hb
    · cases hb
      rename_i hi
      simp [hi]
    · exact hinv.accKey i b hb
  · intro e he
    rw [hent] at he
    rw [List.mem_append] at he
    rcases he with he | he
    · have := hinv.entLt e he
      omega
    · rw [List.mem_singleton] at he
      subst he
      have hia : inp.accountId < st'.nextId := by omega
      simpa using hia
  · intro i b hb
    rw [hacc i] at hb
    rw [hent, entrySum_append, entrySum_single]
    split at hb
    · cases hb
      rename_i hi
      subst hi
      have hbs := hinv.balSum inp.accountId account hacct
      simp [signedAmount, hkey, hbs, sub_eq_add_neg]
    · rename_i hi
      have hbs := hinv.balSum i b hb
      have hne : inp.accountId ≠ i := by
        rw [← hkey]
        exact fun hc => hi hc.symm
      simp [hne, hbs]

lemma storeInv_transfer {st st' : Store} {o : Nat → Bool}
    {inp : TransferInput} {txnId : String} {now : Nat} {tx : Transaction}
    (hinv : StoreInv st)
    (hne : inp.sourceAccountId ≠ inp.destinationAccountId)
    (h : transfer st o inp txnId now = (st', Except.ok tx)) :
    StoreInv st' := by
  obtain ⟨src, dest, hsrc, hdst, hc1, hc2, hav, htx, hnext, hent, hacc, htxs⟩ :=
    transfer_ok_shape h
  obtain ⟨hsacct, huser⟩ := findOneAccountOwned_eq_some hsrc
  have hdacct : st.accounts inp.destinationAccountId = some dest := hdst
  have hskey : src.accId = inp.sourceAccountId := hinv.accKey _ _ hsacct
  have hdkey : dest.accId = inp.destinationAccountId := hinv.accKey _ _ hdacct
  have hslt : inp.sourceAccountId < st.nextId := hinv.accLt _ _ hsacct
  have hdlt : inp.destinationAccountId < st.nextId := hinv.accLt _ _ hdacct
  constructor
  · intro i b hb
    rw [hacc i] at hb
    split at hb
    · omega
    · split at hb
      · omega
      · have := hinv.accLt i b hb
        omega
  · intro i b hb
    rw [hacc i] at hb
    split at hb
    · cases hb
      rename_i hi
      simp [hi]
    · split at hb
      · cases hb
        rename_i hi
        simp [hi]
      · exact hinv.accKey i b hb
  · intro e he
    rw [hent] at he
    rw [List.mem_append] at he
    rcases he with he | he
    · have := hinv.entLt e he
      omega
    · rw [List.mem_cons, List.mem_singleton] at he
      rcases he with he | he <;> subst he
      · have hia : inp.sourceAccountId < st'.nextId := by omega
        simpa using hia
      · have hia : inp.destinationAccountId < st'.nextId := by omega
        simpa using hia
  · intro i b hb
    rw [hacc i] at hb
    rw [hent, entrySum_append, entrySum_pair]
    split at hb
    · cases hb
      rename_i hi
      subst hi
      have hbs := hinv.balSum inp.destinationAccountId dest hdacct
      simp [signedAmount, hdkey, hbs, hne, Ne.symm hne]
    · rename_i hi
      split at hb
      · cases hb
        rename_i hj
        subst hj
        have hbs := hinv.balSum inp.sourceAccountId src hsacct
        simp [signedAmount, hskey, hbs, hne, Ne.symm hne, sub_eq_add_neg]
      · rename_i hj
        have hbs := hinv.balSum i b hb
        have hns : inp.sourceAccountId ≠ i := by
          rw [← hskey]
          exact fun hc => hj hc.symm
        have hnd : inp.destinationAccountId ≠ i := by
          rw [← hdkey]
          exact fun hc => hi hc.symm
        simp [hns, hnd, hbs]

/-- Induction over reachable states: when every admitted creation input has
zero initial balance, the store invariant (in particular the ledger-sum
property) holds in every reachable state. -/
lemma reachableFrom_inv {P : CreateAccountInput → Prop}
    (hP : ∀ inp, P inp → inp.initialBalance.getD 0 = 0)
    {st : Store} (h : ReachableFrom P st) : StoreInv st := by
  induction h with
  | init => exact storeInv_empty
  | create st o accountNumber inp a hst hPinp hok ih =>
      have h2 : createAccount st o accountNumber inp =
          ((createAccount st o accountNumber inp).1, Except.ok a) := by
        rw [← hok]
      exact storeInv_createAccount ih (hP inp hPinp) h2
  | dep st o useTx inp txnId now tx hst hok ih =>
      have h2 : deposit st o useTx inp txnId now =
          ((deposit st o useTx inp txnId now).1, Except.ok tx) := by
        rw [← hok]
      exact storeInv_deposit ih h2
  | wd st o inp txnId now tx hst hok ih =>
      have h2 : withdraw st o inp txnId now =
          ((withdraw st o inp txnId now).1, Except.ok tx) := by
        rw [← hok]
      exact storeInv_withdraw ih h2
  | tr st o inp txnId now tx hst hne hok ih =>
      have h2 : transfer st o inp txnId now =
          ((transfer st o inp txnId now).1, Except.ok tx) := by
        rw [← hok]
      exact storeInv_transfer ih hne h2

/-- When the owned account is found with matching currency and sufficient
available funds and every store write succeeds, `withdraw` succeeds. -/
lemma withdraw_all_ok {st : Store} {o : Nat → Bool} {inp : WithdrawalInput}
    {txnId : String} {now : Nat} {account : Account}
    (hall : ∀ k, o k = true)
    (hfind : findOneAccountOwned st inp.accountId inp.userId = some account)
    (hcur : account.currency = inp.currency)
    (hav : ¬ account.availableBalance < inp.amount) :
    ∃ tx, withdraw st o inp txnId now =
      ((withdraw st o inp txnId now).1, Except.ok tx) := by
  unfold withdraw
  simp [hfind, hcur, hav, hall]

/-- When the owned account is found with matching currency and every store
write succeeds, `deposit` succeeds in either execution mode. -/
lemma deposit_all_ok {st : Store} {o : Nat → Bool} {useTx : Bool}
    {inp : DepositInput} {txnId : String} {now : Nat} {account : Account}
    (hall : ∀ k, o k = true)
    (hfind : findOneAccountOwned st inp.accountId inp.userId = some account)
    (hcur : account.currency = inp.currency) :
    ∃ tx, deposit st o useTx inp txnId now =
      ((deposit st o useTx inp txnId now).1, Except.ok tx) := by
  unfold deposit depositWithTransaction depositWithoutTransaction
  cases useTx <;> simp [hfind, hcur, hall]

/-- When both accounts are found, both currencies match, source funds
suffice and every store write succeeds, `transfer` succeeds. -/
lemma transfer_all_ok {st : Store} {o : Nat → Bool} {inp : TransferInput}
    {txnId : String} {now : Nat} {src dest : Account}
    (hall : ∀ k, o k = true)
    (hsrc : findOneAccountOwned st inp.sourceAccountId inp.userId = some src)
    (hdst : findOneAccount st inp.destinationAccountId = some dest)
    (hc1 : src.currency = inp.currency)
    (hc2 : dest.currency = inp.currency)
    (hav : ¬ src.availableBalance < inp.amount) :
    ∃ tx, transfer st o inp txnId now =
      ((transfer st o inp txnId now).1, Except.ok tx) := by
  unfold transfer
  simp [hsrc, hdst, hc1, hc2, hav, hall]

/-- Oracle under which every store write succeeds. -/
def oracleAll : Nat → Bool := fun _ => true

/-- Oracle under which only the first store write succeeds. -/
def oracleFirstOnly : Nat → Bool := fun k => k == 0

/-- A concrete deposit request used in witnesses. -/
def dinpW : DepositInput :=
  { userId := 7, accountId := 0, amount := 50, currency := "USD",
    description := "cash in" }

/-- A concrete withdrawal request used in witnesses. -/
def winpW : WithdrawalInput :=
  { userId := 7, accountId := 0, amount := 50, currency := "USD",
    description := "cash out" }

/-- A concrete transfer request used in witnesses. -/
def tinpW : TransferInput :=
  { userId := 7, sourceAccountId := 0, destinationAccountId := 1,
    amount := 50, currency := "USD", description := "move" }

/-- C1: every deposit, withdrawal or transfer executed in strict mode that
fails for any reason — account not found, currency mismatch, insufficient
funds, or a store failure at any step of the write sequence — leaves the
observable state exactly as it was: no new transaction record, no ledger
entry, and no balance change persists. -/
theorem strict_mode_failure_is_atomic (st : Store) (o : Nat → Bool)
    (dinp : DepositInput) (winp : WithdrawalInput) (tinp : TransferInput)
    (txnId : String) (now : Nat) (e1 e2 e3 : LedgerError) :
    ((deposit st o true dinp txnId now).2 = Except.error e1 →
      (deposit st o true dinp txnId now).1 = st) ∧
    ((withdraw st o winp txnId now).2 = Except.error e2 →
      (withdraw st o winp txnId now).1 = st) ∧
    ((transfer st o tinp txnId now).2 = Except.error e3 →
      (transfer st o tinp txnId now).1 = st) := by
  refine ⟨fun h => ?_, fun h => withdraw_error_eq h, fun h => transfer_error_eq h⟩
  simp only [deposit, if_true] at h ⊢
  exact depositWithTransaction_error_eq h

/-- Witness for C1: on the empty store all three strict-mode operations
fail (account not found) and the store is unchanged. -/
theorem strict_mode_failure_is_atomic_witness :
    (deposit emptyStore oracleAll true dinpW "txn" 0).1 = emptyStore ∧
    (withdraw emptyStore oracleAll winpW "txn" 0).1 = emptyStore ∧
    (transfer emptyStore oracleAll tinpW "txn" 0).1 = emptyStore := by
  obtain ⟨h1, h2, h3⟩ := strict_mode_failure_is_atomic emptyStore oracleAll
    dinpW winpW tinpW "txn" 0
    (LedgerError.appError "Account not found")
    (LedgerError.appError "Account not found")
    (LedgerError.appError "Source account not found")
  exact ⟨h1 rfl, h2 rfl, h3 rfl⟩

/-- C4 (evaluating the code at the failing input NODE_ENV=production with a
failing capability probe): `connectDB` logs the fallback warning, but the
exported `useTransactions` flag is an immutable module constant and stays
true, so a subsequent deposit still dispatches to the strict session-scoped
path — no downgrade to best-effort takes place, contradicting both the
claim and the emitted log line. -/
theorem probe_failure_does_not_downgrade :
    (connectDB "production" false).1 =
      ["MongoDB transaction support unavailable:",
       "Running in fallback mode without transaction support. NOT recommended for production!"] ∧
    (connectDB "production" false).2 = true ∧
    (∀ st o dinp txnId now,
      deposit st o (connectDB "production" false).2 dinp txnId now =
        depositWithTransaction st o dinp txnId now) := by
  refine ⟨rfl, rfl, fun st o dinp txnId now => rfl⟩

/-- A concrete account with balance 100 used in counterexamples. -/
def acctC3 : Account :=
  { accId := 0, userId := 7, accountNumber := "1000000003", name := "Checking",
    type := AccountType.asset, currency := "USD", balance := 100,
    availableBalance := 100, status := AccountStatus.active }

/-- A concrete one-account store used in counterexamples. -/
def stC3 : Store :=
  { accounts := fun i => if i = 0 then some acctC3 else none,
    transactions := fun _ => none, entries := [], nextId := 1 }

/-- C3 counterexample: with best-effort selected (NODE_ENV development) and
a store that fails at the second write, the implemented `withdraw` leaves
no trace — it always runs inside the session scope and aborts — whereas
the best-effort sequential execution the claim prescribes for every write
operation would leave the pending transaction durably visible.  The two
behaviours differ at this concrete input, so the selected strategy does not
govern `withdraw`. -/
theorem strategy_selection_counterexample :
    useTransactions "development" = false ∧
    (withdraw stC3 oracleFirstOnly winpW "txn-c" 0).1.transactions 1 = none ∧
    (withdrawBestEffort stC3 oracleFirstOnly winpW "txn-c" 0).1.transactions 1 =
      some { id := 1, transactionId := "txn-c", userId := 7,
             type := TransactionType.withdrawal, amount := 50,
             currency := "USD", sourceAccountId := some 0,
             destinationAccountId := none, description := "cash out",
             status := TransactionStatus.pending, completedAt := none } := by
  refine ⟨rfl, rfl, rfl⟩

/-- C3 amended: the execution strategy flag is computed once at process
startup from the environment, but it governs only `deposit` (and account
closing): under best-effort selection `deposit` runs the sequential
no-scope path, while `withdraw` and `transfer` always execute inside the
atomic session scope regardless of the selected strategy — any failure
leaves the store unchanged. -/
theorem strategy_selection_amended (nodeEnv : String) (st : Store)
    (o : Nat → Bool) (dinp : DepositInput) (winp : WithdrawalInput)
    (tinp : TransferInput) (txnId : String) (now : Nat) (e1 e2 : LedgerError) :
    (useTransactions nodeEnv = false →
      deposit st o (useTransactions nodeEnv) dinp txnId now =
        depositWithoutTransaction st o dinp txnId now) ∧
    ((withdraw st o winp txnId now).2 = Except.error e1 →
      (withdraw st o winp txnId now).1 = st) ∧
    ((transfer st o tinp txnId now).2 = Except.error e2 →
      (transfer st o tinp txnId now).1 = st) := by
  refine ⟨fun h => ?_, fun h => withdraw_error_eq h, fun h => transfer_error_eq h⟩
  rw [h]
  rfl

/-- Witness for the amended C3 at concrete inputs: best-effort dispatch of
deposit under a development environment, and unchanged stores for failing
withdraw and transfer. -/
theorem strategy_selection_amended_witness :
    deposit emptyStore oracleAll (useTransactions "development") dinpW "txn" 0 =
      depositWithoutTransaction emptyStore oracleAll dinpW "txn" 0 ∧
    (withdraw emptyStore oracleAll winpW "txn" 0).1 = emptyStore ∧
    (transfer emptyStore oracleAll tinpW "txn" 0).1 = emptyStore := by
  obtain ⟨h1, h2, h3⟩ := strategy_selection_amended "development" emptyStore
    oracleAll dinpW winpW tinpW "txn" 0
    (LedgerError.appError "Account not found")
    (LedgerError.appError "Source account not found")
  exact ⟨h1 rfl, h2 rfl, h3 rfl⟩

/-- A creation request with nonzero initial balance, as the repository's
own tests issue (`initialBalance: 1000`). -/
def createInpNZ : CreateAccountInput :=
  { userId := 7, name := "Source Account", type := AccountType.asset,
    currency := "USD", initialBalance := some 1000 }

/-- The store after creating one account with initial balance 1000. -/
def stInitBal : Store :=
  (createAccount emptyStore oracleAll "1000000001" createInpNZ).1

/-- C2 counterexample: an account created with initial balance 1000 is a
state reachable by the implemented operations, yet it has no ledger entries
at all, so its signed entry sum 0 differs from its balance 1000. -/
theorem ledger_sum_counterexample :
    Reachable stInitBal ∧
    (∃ a, stInitBal.accounts 0 = some a ∧ a.balance = 1000) ∧
    entrySum stInitBal.entries 0 = 0 := by
  refine ⟨?_, ⟨_, rfl, rfl⟩, rfl⟩
  exact ReachableFrom.create emptyStore oracleAll "1000000001" createInpNZ
    _ ReachableFrom.init trivial rfl

/-- C2 amended: the invariant holds for accounts created with zero initial
balance, the creation behaviour the specification states: in every state
reachable by account creation (with `initialBalance` absent or zero)
followed by any sequence of successful deposits, withdrawals and
transfers, the sum of all ledger entries recorded against an account —
debit amounts positive, credit amounts negative — equals its current
balance.  (`createAccount` with a nonzero `initialBalance` seeds the
balance without writing any ledger entry, which is exactly what the
counterexample exhibits.) -/
theorem ledger_sum_invariant {st : Store} (h : ReachableZeroInit st)
    (i : Nat) (a : Account) (ha : st.accounts i = some a) :
    entrySum st.entries i = a.balance :=
  (reachableFrom_inv (fun _ hz => hz) h).balSum i a ha

/-- A creation request with no initial balance. -/
def createInpZ : CreateAccountInput :=
  { userId := 7, name := "Main", type := AccountType.asset,
    currency := "USD", initialBalance := none }

/-- The store after creating one zero-balance account. -/
def stZ1 : Store := (createAccount emptyStore oracleAll "1000000002" createInpZ).1

/-- The created zero-balance account. -/
def acctZ1 : Account :=
  { accId := 0, userId := 7, accountNumber := "1000000002", name := "Main",
    type := AccountType.asset, currency := "USD", balance := 0,
    availableBalance := 0, status := AccountStatus.active }

/-- A concrete deposit of 500 into that account. -/
def dinpZ : DepositInput :=
  { userId := 7, accountId := 0, amount := 500, currency := "USD",
    description := "pay" }

/-- The completed transaction produced by that deposit. -/
def txZ : Transaction :=
  { id := 1, transactionId := "txn-a", userId := 7,
    type := TransactionType.deposit, amount := 500, currency := "USD",
    sourceAccountId := none, destinationAccountId := some 0,
    description := "pay", status := TransactionStatus.completed,
    completedAt := some 5 }

/-- The store after that deposit. -/
def stZ2 : Store := (deposit stZ1 oracleAll true dinpZ "txn-a" 5).1

/-- Witness for the amended C2 on a concrete reachable state: after
creating a zero-balance account and depositing 500, the signed entry sum
for the account equals its balance. -/
theorem ledger_sum_invariant_witness :
    entrySum stZ2.entries 0 =
      ({ acctZ1 with balance := 500, availableBalance := 500 } : Account).balance := by
  have hreach : ReachableZeroInit stZ2 :=
    ReachableFrom.dep stZ1 oracleAll true dinpZ "txn-a" 5 txZ
      (ReachableFrom.create emptyStore oracleAll "1000000002" createInpZ acctZ1
        ReachableFrom.init rfl rfl)
      rfl
  exact ledger_sum_invariant hreach 0
    { acctZ1 with balance := 500, availableBalance := 500 } rfl

/-- C5: every successful deposit of amount a into an owner-owned account
with matching currency — in either execution mode — adds a to the balance
and to the available balance, creates exactly one debit ledger entry with
amount a and balance snapshot old balance + a, and returns the transaction
completed with a completion timestamp. -/
theorem deposit_success_postconditions {st st' : Store} {o : Nat → Bool}
    {useTx : Bool} {inp : DepositInput} {txnId : String} {now : Nat}
    {tx : Transaction} {account : Account}
    (hfind : findOneAccountOwned st inp.accountId inp.userId = some account)
    (hkey : account.accId = inp.accountId)
    (hpos : 0 < inp.amount)
    (h : deposit st o useTx inp txnId now = (st', Except.ok tx)) :
    account.currency = inp.currency ∧
    st'.accounts inp.accountId =
      some { account with
              balance := account.balance + inp.amount,
              availableBalance := account.availableBalance + inp.amount } ∧
    st'.entries = st.entries ++
      [{ transactionId := tx.id, accountId := inp.accountId,
         type := EntryType.debit, amount := inp.amount,
         currency := inp.currency, balance := account.balance + inp.amount,
         description := "Deposit: " ++ inp.description }] ∧
    tx.status = TransactionStatus.completed ∧
    tx.completedAt = some now := by
  obtain ⟨account2, hfind2, hcur, htx, hnext, hent, hacc, htxs⟩ :=
    deposit_ok_shape h
  rw [hfind] at hfind2
  injection hfind2 with heq
  cases heq
  subst htx
  refine ⟨hcur, ?_, ?_, rfl, rfl⟩
  · rw [hacc inp.accountId, if_pos hkey.symm]
  · rw [hent]

/-- Witness for C5: depositing 500 into the concrete zero-balance account
yields balance 500, one debit entry and a completed transaction. -/
theorem deposit_success_postconditions_witness :
    acctZ1.currency = dinpZ.currency ∧
    stZ2.accounts 0 =
      some { acctZ1 with balance := 500, availableBalance := 500 } ∧
    stZ2.entries = stZ1.entries ++
      [{ transactionId := 1, accountId := 0, type := EntryType.debit,
         amount := 500, currency := "USD", balance := 500,
         description := "Deposit: pay" }] ∧
    txZ.status = TransactionStatus.completed ∧
    txZ.completedAt = some 5 :=
  deposit_success_postconditions
    (rfl : findOneAccountOwned stZ1 0 7 = some acctZ1)
    (rfl : acctZ1.accId = 0)
    (by decide : (0 : Int) < 500)
    (rfl : deposit stZ1 oracleAll true dinpZ "txn-a" 5 = (stZ2, Except.ok txZ))

/-- C6: every successful transfer of amount a (with distinct source and
destination, as the input-validation boundary guarantees) decreases the
source balance by a, increases the destination balance by a, and creates
exactly two ledger entries — a credit on the source with snapshot old
source balance minus a and a debit on the destination with snapshot old
destination balance plus a — both referencing the returned transaction,
which is completed. -/
theorem transfer_success_postconditions {st st' : Store} {o : Nat → Bool}
    {inp : TransferInput} {txnId : String} {now : Nat} {tx : Transaction}
    {src dest : Account}
    (hne : inp.sourceAccountId ≠ inp.destinationAccountId)
    (hsrc : findOneAccountOwned st inp.sourceAccountId inp.userId = some src)
    (hskey : src.accId = inp.sourceAccountId)
    (hdst : findOneAccount st inp.destinationAccountId = some dest)
    (hdkey : dest.accId = inp.destinationAccountId)
    (h : transfer st o inp txnId now = (st', Except.ok tx)) :
    st'.accounts inp.sourceAccountId =
      some { src with
              balance := src.balance - inp.amount,
              availableBalance := src.availableBalance - inp.amount } ∧
    st'.accounts inp.destinationAccountId =
      some { dest with
              balance := dest.balance + inp.amount,
              availableBalance := dest.availableBalance + inp.amount } ∧
    st'.entries = st.entries ++
      [{ transactionId := tx.id, accountId := inp.sourceAccountId,
         type := EntryType.credit, amount := inp.amount,
         currency := inp.currency, balance := src.balance - inp.amount,
         description := "Transfer Out: " ++ inp.description },
       { transactionId := tx.id, accountId := inp.destinationAccountId,
         type := EntryType.debit, amount := inp.amount,
         currency := inp.currency, balance := dest.balance + inp.amount,
         description := "Transfer In: " ++ inp.description }] ∧
    tx.status = TransactionStatus.completed ∧
    tx.completedAt = some now := by
  obtain ⟨src2, dest2, hsrc2, hdst2, hc1, hc2, hav, htx, hnext, hent, hacc, htxs⟩ :=
    transfer_ok_shape h
  rw [hsrc] at hsrc2
  injection hsrc2 with he1
  cases he1
  rw [hdst] at hdst2
  injection hdst2 with he2
  cases he2
  subst htx
  have hneg : inp.sourceAccountId ≠ dest.accId := by
    rw [hdkey]
    exact hne
  refine ⟨?_, ?_, ?_, rfl, rfl⟩
  · rw [hacc inp.sourceAccountId, if_neg hneg, if_pos hskey.symm]
  · rw [hacc inp.destinationAccountId, if_pos hdkey.symm]
  · rw [hent]

/-- A second concrete account (a different owner) used as a transfer
destination. -/
def acctB : Account :=
  { accId := 1, userId := 9, accountNumber := "1000000004", name := "Dest",
    type := AccountType.asset, currency := "USD", balance := 0,
    availableBalance := 0, status := AccountStatus.active }

/-- A concrete two-account store used for transfer witnesses. -/
def stT : Store :=
  { accounts := fun i => if i = 0 then some acctC3 else if i = 1 then some acctB else none,
    transactions := fun _ => none, entries := [], nextId := 2 }

/-- The completed transaction of the witness transfer. -/
def txT : Transaction :=
  { id := 2, transactionId := "txn-t", userId := 7,
    type := TransactionType.transfer, amount := 50, currency := "USD",
    sourceAccountId := some 0, destinationAccountId := some 1,
    description := "move", status := TransactionStatus.completed,
    completedAt := some 9 }

/-- Witness for C6: a concrete transfer of 50 from the balance-100 account
to the zero-balance account of another owner. -/
theorem transfer_success_postconditions_witness :
    (transfer stT oracleAll tinpW "txn-t" 9).1.accounts 0 =
      some { acctC3 with balance := 50, availableBalance := 50 } ∧
    (transfer stT oracleAll tinpW "txn-t" 9).1.accounts 1 =
      some { acctB with balance := 50, availableBalance := 50 } ∧
    (transfer stT oracleAll tinpW "txn-t" 9).1.entries = stT.entries ++
      [{ transactionId := 2, accountId := 0, type := EntryType.credit,
         amount := 50, currency := "USD", balance := 50,
         description := "Transfer Out: move" },
       { transactionId := 2, accountId := 1, type := EntryType.debit,
         amount := 50, currency := "USD", balance := 50,
         description := "Transfer In: move" }] ∧
    txT.status = TransactionStatus.completed ∧
    txT.completedAt = some 9 :=
  transfer_success_postconditions
    (by decide : (0 : Nat) ≠ 1)
    (rfl : findOneAccountOwned stT 0 7 = some acctC3)
    (rfl : acctC3.accId = 0)
    (rfl : findOneAccount stT 1 = some acctB)
    (rfl : acctB.accId = 1)
    (rfl : transfer stT oracleAll tinpW "txn-t" 9 =
      ((transfer stT oracleAll tinpW "txn-t" 9).1, Except.ok txT))

/-- C7: for an owner-owned account with matching currency, a withdrawal
fails with the insufficient-funds error exactly when the available balance
is strictly below the amount; withdrawing exactly the available balance
succeeds (when the store writes succeed), and when available balance equals
balance this leaves the balance at zero. -/
theorem withdraw_insufficient_funds_boundary {st : Store} {o : Nat → Bool}
    {inp : WithdrawalInput} {txnId : String} {now : Nat} {account : Account}
    (hfind : findOneAccountOwned st inp.accountId inp.userId = some account)
    (hkey : account.accId = inp.accountId)
    (hcur : account.currency = inp.currency) :
    ((withdraw st o inp txnId now).2 =
        Except.error (LedgerError.appError "Insufficient funds") ↔
      account.availableBalance < inp.amount) ∧
    ((∀ k, o k = true) → inp.amount = account.availableBalance →
      ∃ tx, (withdraw st o inp txnId now).2 = Except.ok tx ∧
        (withdraw st o inp txnId now).1.accounts inp.accountId =
          some { account with
                  balance := account.balance - inp.amount,
                  availableBalance := account.availableBalance - inp.amount } ∧
        (account.availableBalance = account.balance →
          account.balance - inp.amount = 0)) := by
  refine ⟨⟨?_, ?_⟩, fun hall hamt => ?_⟩
  · unfold withdraw
    split
    next heq =>
      rw [hfind] at heq
      simp at heq
    next b heq =>
      rw [hfind] at heq
      injection heq with heq
      cases heq
      rw [if_neg (fun hn => hn hcur)]
      by_cases hlt : account.availableBalance < inp.amount
      · intro _
        exact hlt
      · rw [if_neg hlt]
        intro h
        exfalso
        revert h
        repeat' split
        all_goals intro h
        all_goals simp at h
  · intro hlt
    unfold withdraw
    simp [hfind, hcur, hlt]
  · have hav : ¬ account.availableBalance < inp.amount := by
      rw [hamt]
      exact lt_irrefl _
    obtain ⟨tx, htot⟩ := withdraw_all_ok hall hfind hcur hav
    obtain ⟨account2, hfind2, hcur2, hav2, htx, hnext, hent, hacc, htxs⟩ :=
      withdraw_ok_shape htot
    rw [hfind] at hfind2
    injection hfind2 with heq
    cases heq
    refine ⟨tx, ?_, ?_, fun hb => ?_⟩
    · rw [htot]
    · rw [hacc inp.accountId, if_pos hkey.symm]
    · omega

/-- Witness for C7: the concrete balance-100 account withdrawn by exactly
its available balance 100: no insufficient-funds error, the withdrawal
succeeds and the balance ends at zero. -/
theorem withdraw_insufficient_funds_boundary_witness :
    ∃ tx, (withdraw stC3 oracleAll
        { userId := 7, accountId := 0, amount := 100, currency := "USD",
          description := "all" } "txn-w" 3).2 = Except.ok tx ∧
      (withdraw stC3 oracleAll
        { userId := 7, accountId := 0, amount := 100, currency := "USD",
          description := "all" } "txn-w" 3).1.accounts 0 =
        some { acctC3 with balance := 0, availableBalance := 0 } ∧
      (acctC3.availableBalance = acctC3.balance →
        acctC3.balance - (100 : Int) = 0) := by
  exact (withdraw_insufficient_funds_boundary
    (rfl : findOneAccountOwned stC3 0 7 = some acctC3)
    (rfl : acctC3.accId = 0)
    (rfl : acctC3.currency = "USD")).2 (fun k => rfl) rfl

set_option maxHeartbeats 2000000 in
/-- C8: a transfer fails with the source-not-found error exactly when no
account with the source identifier is owned by the caller, while the
destination lookup carries no ownership condition: the
destination-not-found error occurs exactly when (the source having been
found) no account with the destination identifier exists at all, whoever
owns it. -/
theorem transfer_lookup_scoping (st : Store) (o : Nat → Bool)
    (inp : TransferInput) (txnId : String) (now : Nat) :
    ((transfer st o inp txnId now).2 =
        Except.error (LedgerError.appError "Source account not found") ↔
      findOneAccountOwned st inp.sourceAccountId inp.userId = none) ∧
    ((transfer st o inp txnId now).2 =
        Except.error (LedgerError.appError "Destination account not found") ↔
      (findOneAccountOwned st inp.sourceAccountId inp.userId ≠ none ∧
        st.accounts inp.destinationAccountId = none)) := by
  unfold transfer
  split
  next heq =>
    constructor
    · simp [heq]
    · constructor
      · intro h
        simp at h
      · intro hc
        exact absurd heq hc.1
  next src heq =>
    split
    next heq2 =>
      constructor
      · constructor
        · intro h
          simp at h
        · intro hn
          exact absurd (heq.symm.trans hn) (by simp)
      · unfold findOneAccount at heq2
        simp [heq, heq2]
    next dest heq2 =>
      unfold findOneAccount at heq2
      constructor
      · constructor
        · intro h
          exfalso
          revert h
          repeat' split
          all_goals intro h
          all_goals first
            | simp at h
            | (injection h with h1; injection h1 with h2;
               exact absurd h2 (by decide))
        · intro hn
          exact absurd (heq.symm.trans hn) (by simp)
      · constructor
        · intro h
          exfalso
          revert h
          repeat' split
          all_goals intro h
          all_goals first
            | simp at h
            | (injection h with h1; injection h1 with h2;
               exact absurd h2 (by decide))
        · intro hc
          exact absurd (heq2.symm.trans hc.2) (by simp)

/-- Witness for C8 at concrete inputs: an unknown source id yields the
source-not-found error, and a destination owned by someone else is no
destination-not-found error (the lookup ignores ownership). -/
theorem transfer_lookup_scoping_witness :
    (transfer stT oracleAll
        { userId := 7, sourceAccountId := 5, destinationAccountId := 1,
          amount := 50, currency := "USD", description := "move" }
        "txn" 0).2 =
      Except.error (LedgerError.appError "Source account not found") ∧
    ¬ ((transfer stT oracleAll tinpW "txn" 0).2 =
      Except.error (LedgerError.appError "Destination account not found")) := by
  constructor
  · exact (transfer_lookup_scoping stT oracleAll
      { userId := 7, sourceAccountId := 5, destinationAccountId := 1,
        amount := 50, currency := "USD", description := "move" }
      "txn" 0).1.mpr rfl
  · intro h
    have hc := (transfer_lookup_scoping stT oracleAll tinpW "txn" 0).2.mp h
    exact absurd hc.2 (by decide)

/-- C9: closing an account succeeds only when its balance is exactly zero —
then only the status changes, to closed — and for any nonzero balance it
fails with the conflict error and leaves the store, hence the account,
completely unchanged.  Both execution modes behave identically. -/
theorem close_account_zero_balance {st : Store} {o : Nat → Bool}
    {useTx : Bool} {accId userId : Nat} {account : Account}
    (hfind : findOneAccountOwned st accId userId = some account) :
    (account.balance ≠ 0 →
      closeAccount st o useTx accId userId =
        (st, Except.error
          (LedgerError.appError "Account must have zero balance to be closed"))) ∧
    (∀ st2 a2, closeAccount st o useTx accId userId = (st2, Except.ok a2) →
      account.balance = 0 ∧
      a2 = { account with status := AccountStatus.closed }) := by
  constructor
  · intro hb
    unfold closeAccount closeAccountWithTransaction closeAccountWithoutTransaction
    cases useTx <;> simp [hfind, hb]
  · intro st2 a2 h
    revert h
    unfold closeAccount closeAccountWithTransaction closeAccountWithoutTransaction
    cases useTx
    · simp only [hfind, Bool.false_eq_true, if_false]
      repeat' split
      all_goals intro h
      all_goals try (exfalso; simp at h; done)
      rename_i hbz h0
      rw [Prod.mk.injEq] at h
      obtain ⟨hst, ha⟩ := h
      injection ha with ha
      subst ha
      exact ⟨not_not.mp hbz, rfl⟩
    · simp only [hfind, if_true]
      repeat' split
      all_goals intro h
      all_goals try (exfalso; simp at h; done)
      rename_i hbz h0 h1
      rw [Prod.mk.injEq] at h
      obtain ⟨hst, ha⟩ := h
      injection ha with ha
      subst ha
      exact ⟨not_not.mp hbz, rfl⟩

/-- Witness for C9: closing the concrete balance-100 account fails with the
conflict error and returns the store unchanged. -/
theorem close_account_zero_balance_witness :
    closeAccount stC3 oracleAll true 0 7 =
      (stC3, Except.error
        (LedgerError.appError "Account must have zero balance to be closed")) :=
  (close_account_zero_balance
    (rfl : findOneAccountOwned stC3 0 7 = some acctC3)).1
    (by decide : acctC3.balance ≠ 0)

/-- C10: none of deposit, withdrawal or transfer inspects the account
status: whenever the existence, ownership, currency and (where applicable)
available-balance preconditions hold and the store writes succeed, the
operations succeed and mutate balances in the usual way even though the
account status is frozen or closed (the status hypothesis is never needed —
the same holds verbatim for an active account). -/
theorem operations_ignore_account_status {st : Store} {o : Nat → Bool}
    {useTx : Bool} {dinp : DepositInput} {txnId : String} {now : Nat}
    {account : Account}
    (hall : ∀ k, o k = true)
    (hfind : findOneAccountOwned st dinp.accountId dinp.userId = some account)
    (hkey : account.accId = dinp.accountId)
    (hcur : account.currency = dinp.currency)
    (hstatus : account.status = AccountStatus.frozen ∨
      account.status = AccountStatus.closed) :
    (∃ tx, (deposit st o useTx dinp txnId now).2 = Except.ok tx ∧
      (deposit st o useTx dinp txnId now).1.accounts dinp.accountId =
        some { account with
                balance := account.balance + dinp.amount,
                availableBalance := account.availableBalance + dinp.amount }) ∧
    (∀ winp : WithdrawalInput,
      winp.accountId = dinp.accountId → winp.userId = dinp.userId →
      winp.currency = dinp.currency →
      ¬ account.availableBalance < winp.amount →
      ∃ tx, (withdraw st o winp txnId now).2 = Except.ok tx ∧
        (withdraw st o winp txnId now).1.accounts winp.accountId =
          some { account with
                  balance := account.balance - winp.amount,
                  availableBalance := account.availableBalance - winp.amount }) ∧
    (∀ (tinp : TransferInput) (dest : Account),
      tinp.sourceAccountId = dinp.accountId → tinp.userId = dinp.userId →
      tinp.currency = dinp.currency →
      findOneAccount st tinp.destinationAccountId = some dest →
      dest.accId = tinp.destinationAccountId →
      tinp.sourceAccountId ≠ tinp.destinationAccountId →
      dest.currency = tinp.currency →
      ¬ account.availableBalance < tinp.amount →
      ∃ tx, (transfer st o tinp txnId now).2 = Except.ok tx ∧
        (transfer st o tinp txnId now).1.accounts tinp.sourceAccountId =
          some { account with
                  balance := account.balance - tinp.amount,
                  availableBalance := account.availableBalance - tinp.amount } ∧
        (transfer st o tinp txnId now).1.accounts tinp.destinationAccountId =
          some { dest with
                  balance := dest.balance + tinp.amount,
                  availableBalance := dest.availableBalance + tinp.amount }) := by
  refine ⟨?_, ?_, ?_⟩
  · obtain ⟨tx, htot⟩ := deposit_all_ok hall hfind hcur
    obtain ⟨account2, hfind2, hcur2, htx, hnext, hent, hacc, htxs⟩ :=
      deposit_ok_shape htot
    rw [hfind] at hfind2
    injection hfind2 with heq
    cases heq
    refine ⟨tx, ?_, ?_⟩
    · rw [htot]
    · rw [hacc dinp.accountId, if_pos hkey.symm]
  · intro winp h1 h2 h3 hav
    have hfindw : findOneAccountOwned st winp.accountId winp.userId = some account := by
      rw [h1, h2]
      exact hfind
    have hcurw : account.currency = winp.currency := by
      rw [h3]
      exact hcur
    obtain ⟨tx, htot⟩ := withdraw_all_ok hall hfindw hcurw hav
    obtain ⟨account2, hfind2, hcur2, hav2, htx, hnext, hent, hacc, htxs⟩ :=
      withdraw_ok_shape htot
    rw [hfindw] at hfind2
    injection hfind2 with heq
    cases heq
    refine ⟨tx, ?_, ?_⟩
    · rw [htot]
    · rw [hacc winp.accountId, if_pos]
      rw [hkey, h1]
  · intro tinp dest h1 h2 h3 hdst hdkey hne hdcur hav
    have hfindt : findOneAccountOwned st tinp.sourceAccountId tinp.userId = some account := by
      rw [h1, h2]
      exact hfind
    have hcurt : account.currency = tinp.currency := by
      rw [h3]
      exact hcur
    obtain ⟨tx, htot⟩ := transfer_all_ok hall hfindt hdst hcurt hdcur hav
    obtain ⟨src2, dest2, hsrc2, hdst2, hc1, hc2, hav2, htx, hnext, hent, hacc, htxs⟩ :=
      transfer_ok_shape htot
    rw [hfindt] at hsrc2
    injection hsrc2 with heq
    cases heq
    rw [hdst] at hdst2
    injection hdst2 with heq2
    cases heq2
    have hneg : tinp.sourceAccountId ≠ dest.accId := by
      rw [hdkey]
      exact hne
    refine ⟨tx, ?_, ?_, ?_⟩
    · rw [htot]
    · rw [hacc tinp.sourceAccountId, if_neg hneg, if_pos]
      rw [hkey, h1]
    · rw [hacc tinp.destinationAccountId, if_pos hdkey.symm]

/-- A frozen account with balance 100. -/
def acctF : Account :=
  { accId := 0, userId := 7, accountNumber := "1000000005", name := "Frozen",
    type := AccountType.asset, currency := "USD", balance := 100,
    availableBalance := 100, status := AccountStatus.frozen }

/-- A store holding the frozen account and a second destination account. -/
def stF : Store :=
  { accounts := fun i => if i = 0 then some acctF else if i = 1 then some acctB else none,
    transactions := fun _ => none, entries := [], nextId := 2 }

/-- Witness for C10 on a concrete frozen account: deposit, withdrawal and
transfer all succeed and mutate balances as for an active account. -/
theorem operations_ignore_account_status_witness :
    (∃ tx, (deposit stF oracleAll true dinpW "txn" 0).2 = Except.ok tx ∧
      (deposit stF oracleAll true dinpW "txn" 0).1.accounts 0 =
        some { acctF with balance := 150, availableBalance := 150 }) ∧
    (∃ tx, (withdraw stF oracleAll winpW "txn" 0).2 = Except.ok tx ∧
      (withdraw stF oracleAll winpW "txn" 0).1.accounts 0 =
        some { acctF with balance := 50, availableBalance := 50 }) ∧
    (∃ tx, (transfer stF oracleAll tinpW "txn" 0).2 = Except.ok tx ∧
      (transfer stF oracleAll tinpW "txn" 0).1.accounts 0 =
        some { acctF with balance := 50, availableBalance := 50 } ∧
      (transfer stF oracleAll tinpW "txn" 0).1.accounts 1 =
        some { acctB with balance := 50, availableBalance := 50 }) := by
  obtain ⟨hd, hw, ht⟩ := @operations_ignore_account_status stF oracleAll true
    dinpW "txn" 0 acctF (fun k => rfl) rfl rfl rfl
    (Or.inl (rfl : acctF.status = AccountStatus.frozen))
  exact ⟨hd, hw winpW rfl rfl rfl (by decide),
    ht tinpW acctB rfl rfl rfl
      (rfl : findOneAccount stF 1 = some acctB)
      (rfl : acctB.accId = 1)
      (by decide : (0 : Nat) ≠ 1)
      (rfl : acctB.currency = "USD")
      (by decide : ¬ (100 : Int) < 50)⟩

end BankingLedger
